import Mathlib

/-!
Shallow embedding of the live-map and push-notification layer of the
ecoride-admin dashboard: the Location Cache, the marker/heat projector,
the cache-invalidation bridge and the connection-state indicator, with
theorems settling the spec's claims about them.
-/

namespace EcoRide

/-- A row of the driver snapshot, as polled from the REST API
(`getDrivers`): only the fields the map projector reads. -/
structure Driver where
  id : String
  status : String
  deriving Repr, DecidableEq

/-- `DriverLocation` from the map component: last known position plus the
wall-clock instant it was recorded (`updatedAt = Date.now()`). -/
structure DriverLocation where
  latitude : ℚ
  longitude : ℚ
  updatedAt : ℕ
  deriving Repr, DecidableEq

/-- `LocationEvent`: payload of a `DriverLocationUpdated` push event. -/
structure LocationEvent where
  driverId : String
  latitude : ℚ
  longitude : ℚ
  deriving Repr, DecidableEq

/-- The Location Cache (`locationsByDriverId`): a JS object keyed by driver
id, embedded as an association list where the most recent write for a key
stands first. -/
abbrev LocationCache := List (String × DriverLocation)

/-- Key lookup in the Location Cache (`locationsByDriverId[id]`). -/
def cacheGet (c : LocationCache) (i : String) : Option DriverLocation :=
  (c.find? (fun p => p.1 == i)).map (·.2)

/-- `recordLocation`: the spread `{...prev, [data.driverId]: {...}}` —
unconditional overwrite of the entry for `entityId`. -/
def recordLocation (c : LocationCache) (entityId : String) (lat lng : ℚ)
    (now : ℕ) : LocationCache :=
  (entityId, ⟨lat, lng, now⟩) :: c

/-- The map component's `onLocation` handler for `DriverLocationUpdated`. -/
def onLocation (c : LocationCache) (e : LocationEvent) (now : ℕ) :
    LocationCache :=
  recordLocation c e.driverId e.latitude e.longitude now

/-- Apply a stream of location events in order, with a strictly increasing
clock supplying each event's `updatedAt`. -/
def applyEvents : LocationCache → ℕ → List LocationEvent → LocationCache
  | c, _, [] => c
  | c, t, e :: es => applyEvents (onLocation c e t) (t + 1) es

/-- The last event of the stream carrying a given driver id, if any. -/
def lastEventFor (evts : List LocationEvent) (i : String) :
    Option LocationEvent :=
  evts.reverse.find? (fun e => e.driverId == i)

/-- Just the coordinate pair of a cached location. -/
def coords (l : DriverLocation) : ℚ × ℚ :=
  (l.latitude, l.longitude)

/-- JS `String.prototype.toLowerCase`, embedded character by character
(the statuses involved are ASCII). -/
def jsToLower (s : String) : String :=
  ⟨s.data.map Char.toLower⟩

/-- A rendered map marker: `{ id, position: [lat, lng] }`. -/
structure MapMarker where
  id : String
  position : ℚ × ℚ
  deriving Repr, DecidableEq

/-- `availableMarkers`: drivers whose lowercased status is `online`,
mapped through the cache, dropping drivers with no cached location
(the `.map`-to-`null` then `.filter(Boolean)` idiom is `filterMap`). -/
def availableMarkers (drivers : List Driver) (cache : LocationCache) :
    List MapMarker :=
  (drivers.filter (fun d => jsToLower d.status == "online")).filterMap
    (fun d => (cacheGet cache d.id).map
      (fun loc => ⟨d.id, (loc.latitude, loc.longitude)⟩))

/-- The engaged-status test: lowercased status is `busy` or `on_trip`. -/
def engagedStatus (s : String) : Bool :=
  let l := jsToLower s
  l == "busy" || l == "on_trip"

/-- `engagedMarkers`: drivers whose lowercased status is `busy` or
`on_trip`, mapped through the cache, dropping drivers with no cached
location. -/
def engagedMarkers (drivers : List Driver) (cache : LocationCache) :
    List MapMarker :=
  (drivers.filter (fun d => engagedStatus d.status)).filterMap
    (fun d => (cacheGet cache d.id).map
      (fun loc => ⟨d.id, (loc.latitude, loc.longitude)⟩))

/-- `HeatLayer`'s zoom-reactive radius:
`Math.max(10, Math.min(50, 26 * (1 + (12 - currentZoom) * 0.2)))`. -/
def heatRadius (currentZoom : ℚ) : ℚ :=
  let baseRadius : ℚ := 26
  let zoomFactor : ℚ := 1 / 5
  let adjustedRadius := baseRadius * (1 + (12 - currentZoom) * zoomFactor)
  max 10 (min 50 adjustedRadius)

/-- A live ride row, restricted to the origin coordinates the demand heat
mode reads. -/
structure LiveRide where
  originLatitude : ℚ
  originLongitude : ℚ
  deriving Repr, DecidableEq

/-- The map's heat-mode toggle. -/
inductive HeatMode where
  | supply
  | demand
  deriving Repr, DecidableEq

/-- `Number.isFinite`: every rational embeds a finite JS number, so the
demand-mode coordinate filter keeps every embedded ride. -/
def isFiniteNum (_ : ℚ) : Bool :=
  true

/-- `heatPoints`: demand mode takes one weight-1 point per ride origin;
supply mode takes one weight-0.4 point per available marker followed by
one weight-1 point per engaged marker. -/
def heatPoints (mode : HeatMode) (rides : List LiveRide)
    (drivers : List Driver) (cache : LocationCache) : List (ℚ × ℚ × ℚ) :=
  match mode with
  | .demand =>
      (rides.filter (fun r =>
          isFiniteNum r.originLatitude && isFiniteNum r.originLongitude)).map
        (fun r => (r.originLatitude, r.originLongitude, 1))
  | .supply =>
      let engaged := (engagedMarkers drivers cache).map
        (fun m => (m.position.1, m.position.2, (1 : ℚ)))
      let available := (availableMarkers drivers cache).map
        (fun m => (m.position.1, m.position.2, (2 / 5 : ℚ)))
      available ++ engaged

/-- Payload of a driver push event (`DriverEvent`): `fullName` is optional. -/
structure DriverPayload where
  id : String
  fullName : Option String
  deriving Repr, DecidableEq

/-- The push events the admin hub connection subscribes to. -/
inductive HubEvent where
  | driverRegistered (d : DriverPayload)
  | driverApproved (d : DriverPayload)
  | driverRejected (d : DriverPayload)
  | driverStatusChanged (d : DriverPayload)
  | driverLocationUpdated (e : LocationEvent)
  deriving Repr, DecidableEq

/-- A react-query cache key, e.g. `["driver", id]`. -/
abbrev QueryKey := List String

/-- The cache-invalidation routing table: the `invalidateQueries` calls of
each event handler in `SignalRContext`. -/
def invalidationsOf : HubEvent → List QueryKey
  | .driverRegistered _ => [["pendingDrivers"], ["adminStats"]]
  | .driverApproved d =>
      [["pendingDrivers"], ["drivers"], ["adminStats"], ["driver", d.id]]
  | .driverRejected d =>
      [["pendingDrivers"], ["drivers"], ["adminStats"], ["driver", d.id]]
  | .driverStatusChanged d => [["drivers"], ["adminStats"], ["driver", d.id]]
  | .driverLocationUpdated _ => []

/-- `driver.fullName || 'A driver'`: JS falls back when the field is
`undefined` or the empty string. -/
def displayName (d : DriverPayload) : String :=
  match d.fullName with
  | some s => if s == "" then "A driver" else s
  | none => "A driver"

/-- An `AdminToast` notification: title and message. -/
structure AdminToast where
  title : String
  message : String
  deriving Repr, DecidableEq

/-- The toast each handler shows (status changes and location updates show
none). -/
def toastOf : HubEvent → Option AdminToast
  | .driverRegistered d =>
      some ⟨"New driver registration", displayName d ++ " is pending approval."⟩
  | .driverApproved d =>
      some ⟨"Driver approved", displayName d ++ " was approved."⟩
  | .driverRejected d =>
      some ⟨"Driver rejected", displayName d ++ " was rejected."⟩
  | .driverStatusChanged _ => none
  | .driverLocationUpdated _ => none

/-- The client-side state the push events act on: the map's Location Cache
and the accumulated list of stale (invalidated) query groups. -/
structure SysState where
  cache : LocationCache
  stale : List QueryKey
  deriving Repr, DecidableEq

/-- Processing one push event: `DriverLocationUpdated` is routed to the
Location Cache (its `SignalRContext` handler only logs); every other event
marks its routing-table query groups stale and leaves the cache alone. -/
def processEvent (s : SysState) (now : ℕ) (e : HubEvent) : SysState :=
  match e with
  | .driverLocationUpdated le => { s with cache := onLocation s.cache le now }
  | _ => { s with stale := s.stale ++ invalidationsOf e }

/-- The three connection states the indicator distinguishes. -/
inductive HubConnectionState where
  | disconnected
  | reconnecting
  | connected
  deriving Repr, DecidableEq

/-- The lifecycle callbacks that call `setConnectionState`: `onclose`,
`onreconnecting`, `onreconnected`, and the start promise's success and
failure continuations. -/
inductive LifecycleSignal where
  | closeSignal
  | reconnectingSignal
  | reconnectedSignal
  | startSuccess
  | startFailure
  deriving Repr, DecidableEq

/-- The state each callback sets, regardless of the current state: the five
`setConnectionState` call sites in `SignalRProvider`. -/
def applyLifecycle (_current : HubConnectionState) :
    LifecycleSignal → HubConnectionState
  | .closeSignal => .disconnected
  | .reconnectingSignal => .reconnecting
  | .reconnectedSignal => .connected
  | .startSuccess => .connected
  | .startFailure => .disconnected

/-- The states the indicator emits, one per lifecycle signal, each computed
from the state left by the previous signal. -/
def emitStates (s : HubConnectionState) :
    List LifecycleSignal → List HubConnectionState
  | [] => []
  | g :: gs =>
      let s' := applyLifecycle s g
      s' :: emitStates s' gs

/-- JS `String.prototype.endsWith`, on the character lists. -/
def strEndsWith (s t : String) : Bool :=
  t.data == s.data.drop (s.data.length - t.data.length)

/-- JS `String.prototype.startsWith`, on the character lists. -/
def strStartsWith (s t : String) : Bool :=
  t.data == s.data.take t.data.length

/-- Drop the last `n` characters (JS `slice(0, -n)` for `n ≤ length`). -/
def strDropRight (s : String) (n : ℕ) : String :=
  ⟨s.data.take (s.data.length - n)⟩

/-- `stripTrailingSlash`: drop one trailing `/` if present. -/
def stripTrailingSlash (url : String) : String :=
  if strEndsWith url "/" then strDropRight url 1 else url

/-- JS truthiness of an optional environment string: defined and
non-empty. -/
def truthy : Option String → Bool
  | none => false
  | some s => !(s == "")

/-- JS `a || b` on optional environment strings. -/
def jsOr (a b : Option String) : Option String :=
  if truthy a then a else b

/-- The test `/^https?:\/\//i.test(api)`: the string starts with
`http://` or `https://`, case-insensitively. -/
def hasHttpScheme (s : String) : Bool :=
  let l := jsToLower s
  strStartsWith l "http://" || strStartsWith l "https://"

/-- `replace(/\/api$/i, '')`: remove one trailing `/api` segment,
case-insensitively. -/
def removeApiSuffix (s : String) : String :=
  if strEndsWith (jsToLower s) "/api" then strDropRight s 4 else s

/-- The spec's test scenario snapshot: driver A online, driver B on_trip. -/
def scenarioDrivers : List Driver := [⟨"A", "online"⟩, ⟨"B", "on_trip"⟩]

/-- The spec's test scenario cache: a location only for driver B. -/
def scenarioCache : LocationCache := [("B", ⟨-15, 35, 0⟩)]

/-- The hardcoded fallback hub base URL. -/
def fallbackHubUrl : String :=
  "https://ecoride-4560.onrender.com/hubs"

/-- `resolveHubBaseUrl`: explicit hub override (`VITE_HUB_API_URL` or
`VITE_HUB_URL`), else derivation from `VITE_API_URL` when it carries an
http(s) scheme, else the hardcoded fallback. -/
def resolveHubBaseUrl (hubApiUrl hubUrl apiUrl : Option String) : String :=
  let explicit := jsOr hubApiUrl hubUrl
  if truthy explicit then
    stripTrailingSlash (explicit.getD "")
  else if truthy apiUrl && hasHttpScheme (apiUrl.getD "") then
    let origin := removeApiSuffix (stripTrailingSlash (apiUrl.getD ""))
    origin ++ "/hubs"
  else
    fallbackHubUrl


lemma engagedStatus_eq_true_iff (s : String) :
    engagedStatus s = true ↔ jsToLower s = "busy" ∨ jsToLower s = "on_trip" := by
  simp [engagedStatus]

lemma mem_availableMarkers {drivers : List Driver} {cache : LocationCache}
    {m : MapMarker} :
    m ∈ availableMarkers drivers cache ↔
      ∃ d ∈ drivers, jsToLower d.status = "online" ∧
        ∃ loc, cacheGet cache d.id = some loc ∧
          m = ⟨d.id, (loc.latitude, loc.longitude)⟩ := by
  simp only [availableMarkers, List.mem_filterMap, List.mem_filter,
    Option.map_eq_some', beq_iff_eq]
  constructor
  · rintro ⟨d, ⟨hd, hs⟩, loc, hloc, rfl⟩
    exact ⟨d, hd, hs, loc, hloc, rfl⟩
  · rintro ⟨d, hd, hs, loc, hloc, rfl⟩
    exact ⟨d, ⟨hd, hs⟩, loc, hloc, rfl⟩

lemma mem_engagedMarkers {drivers : List Driver} {cache : LocationCache}
    {m : MapMarker} :
    m ∈ engagedMarkers drivers cache ↔
      ∃ d ∈ drivers, engagedStatus d.status = true ∧
        ∃ loc, cacheGet cache d.id = some loc ∧
          m = ⟨d.id, (loc.latitude, loc.longitude)⟩ := by
  simp only [engagedMarkers, List.mem_filterMap, List.mem_filter,
    Option.map_eq_some']
  constructor
  · rintro ⟨d, ⟨hd, hs⟩, loc, hloc, rfl⟩
    exact ⟨d, hd, hs, loc, hloc, rfl⟩
  · rintro ⟨d, hd, hs, loc, hloc, rfl⟩
    exact ⟨d, ⟨hd, hs⟩, loc, hloc, rfl⟩

/-- C1: for every driver snapshot with pairwise-distinct ids and every
location cache, the available-marker set is exactly the online drivers with
a cached location, the engaged-marker set is exactly the busy/on_trip
drivers with a cached location, the two sets are disjoint, and a driver
with no cached location appears in neither. -/
theorem marker_partition_exact (drivers : List Driver) (cache : LocationCache)
    (hnd : (drivers.map Driver.id).Nodup) :
    (∀ i : String,
        (∃ m ∈ availableMarkers drivers cache, m.id = i) ↔
          ∃ d ∈ drivers, d.id = i ∧ jsToLower d.status = "online" ∧
            (cacheGet cache i).isSome) ∧
    (∀ i : String,
        (∃ m ∈ engagedMarkers drivers cache, m.id = i) ↔
          ∃ d ∈ drivers, d.id = i ∧
            (jsToLower d.status = "busy" ∨ jsToLower d.status = "on_trip") ∧
            (cacheGet cache i).isSome) ∧
    (∀ m ∈ availableMarkers drivers cache,
        ∀ m' ∈ engagedMarkers drivers cache, m.id ≠ m'.id) ∧
    (∀ d ∈ drivers, cacheGet cache d.id = none →
        (∀ m ∈ availableMarkers drivers cache, m.id ≠ d.id) ∧
        (∀ m ∈ engagedMarkers drivers cache, m.id ≠ d.id)) := by
  refine ⟨?_, ?_, ?_, ?_⟩
  · intro i
    constructor
    · rintro ⟨m, hm, rfl⟩
      obtain ⟨d, hd, hs, loc, hloc, rfl⟩ := mem_availableMarkers.mp hm
      exact ⟨d, hd, rfl, hs, by simp [hloc]⟩
    · rintro ⟨d, hd, rfl, hs, hsome⟩
      obtain ⟨loc, hloc⟩ := Option.isSome_iff_exists.mp hsome
      exact ⟨⟨d.id, (loc.latitude, loc.longitude)⟩,
        mem_availableMarkers.mpr ⟨d, hd, hs, loc, hloc, rfl⟩, rfl⟩
  · intro i
    constructor
    · rintro ⟨m, hm, rfl⟩
      obtain ⟨d, hd, hs, loc, hloc, rfl⟩ := mem_engagedMarkers.mp hm
      exact ⟨d, hd, rfl, (engagedStatus_eq_true_iff d.status).mp hs, by simp [hloc]⟩
    · rintro ⟨d, hd, rfl, hs, hsome⟩
      obtain ⟨loc, hloc⟩ := Option.isSome_iff_exists.mp hsome
      exact ⟨⟨d.id, (loc.latitude, loc.longitude)⟩,
        mem_engagedMarkers.mpr
          ⟨d, hd, (engagedStatus_eq_true_iff d.status).mpr hs, loc, hloc, rfl⟩, rfl⟩
  · intro m hm m' hm' heq
    obtain ⟨d, hd, hs, loc, hloc, rfl⟩ := mem_availableMarkers.mp hm
    obtain ⟨d', hd', hs', loc', hloc', rfl⟩ := mem_engagedMarkers.mp hm'
    have hdd : d = d' := List.inj_on_of_nodup_map hnd hd hd' heq
    rw [hdd] at hs
    rcases (engagedStatus_eq_true_iff d'.status).mp hs' with h | h
    · rw [hs] at h
      exact absurd h (by decide)
    · rw [hs] at h
      exact absurd h (by decide)
  · intro d hd hnone
    constructor
    · intro m hm heq
      obtain ⟨d', _, _, loc, hloc, rfl⟩ := mem_availableMarkers.mp hm
      rw [show d'.id = d.id from heq] at hloc
      rw [hnone] at hloc
      exact Option.noConfusion hloc
    · intro m hm heq
      obtain ⟨d', _, _, loc, hloc, rfl⟩ := mem_engagedMarkers.mp hm
      rw [show d'.id = d.id from heq] at hloc
      rw [hnone] at hloc
      exact Option.noConfusion hloc

/-- C1 witness: the spec's scenario — snapshot with A online and B on_trip,
cache holding a location only for B: the marker sets are disjoint, the
available set is empty and the engaged set is exactly B. -/
theorem marker_partition_exact_witness :
    (∀ m ∈ availableMarkers scenarioDrivers scenarioCache,
        ∀ m' ∈ engagedMarkers scenarioDrivers scenarioCache, m.id ≠ m'.id) ∧
    availableMarkers scenarioDrivers scenarioCache = [] ∧
    engagedMarkers scenarioDrivers scenarioCache = [⟨"B", (-15, 35)⟩] :=
  ⟨(marker_partition_exact scenarioDrivers scenarioCache (by decide)).2.2.1,
    by decide, by decide⟩

lemma cacheGet_recordLocation (c : LocationCache) (entityId : String)
    (lat lng : ℚ) (now : ℕ) (i : String) :
    cacheGet (recordLocation c entityId lat lng now) i =
      if entityId == i then some ⟨lat, lng, now⟩ else cacheGet c i := by
  by_cases h : entityId == i <;> simp [cacheGet, recordLocation, List.find?_cons, h]

lemma lastEventFor_cons (e : LocationEvent) (es : List LocationEvent)
    (i : String) :
    lastEventFor (e :: es) i =
      (lastEventFor es i).or (if e.driverId == i then some e else none) := by
  by_cases h : e.driverId == i <;>
    simp [lastEventFor, List.reverse_cons, List.find?_append, List.find?_cons, h]

lemma applyEvents_cacheGet (evts : List LocationEvent) :
    ∀ (c : LocationCache) (t : ℕ) (i : String),
      (cacheGet (applyEvents c t evts) i).map coords =
        match lastEventFor evts i with
        | some e => some (e.latitude, e.longitude)
        | none => (cacheGet c i).map coords := by
  induction evts with
  | nil => intro c t i; simp [applyEvents, lastEventFor]
  | cons e es ih =>
      intro c t i
      have hstep : applyEvents c t (e :: es) = applyEvents (onLocation c e t) (t + 1) es := rfl
      rw [hstep, ih (onLocation c e t) (t + 1) i, lastEventFor_cons]
      cases hlast : lastEventFor es i with
      | some e' => simp
      | none =>
          by_cases h : e.driverId == i <;>
            simp [h, onLocation, cacheGet_recordLocation, coords]

/-- C2: after any sequence of `recordLocation` events applied to the empty
cache, `get` on an entity id returns exactly the coordinates of the last
event carrying that id, and is absent when no event carried it
(last-write-wins, unconditional overwrite). -/
theorem locationCache_last_write_wins (t : ℕ) (evts : List LocationEvent)
    (i : String) :
    (cacheGet (applyEvents [] t evts) i).map coords =
      (lastEventFor evts i).map (fun e => (e.latitude, e.longitude)) := by
  have h := applyEvents_cacheGet evts [] t i
  cases hlast : lastEventFor evts i with
  | some e => rw [hlast] at h; simpa using h
  | none =>
      rw [hlast] at h
      simpa [cacheGet] using h


/-- C3: processing a `DriverLocationUpdated` event writes exactly the
event's coordinates into the location cache under the event's driver id,
and leaves the set of stale (invalidated) query groups unchanged. -/
theorem locationUpdate_frame (s : SysState) (now : ℕ) (ev : LocationEvent) :
    cacheGet (processEvent s now (.driverLocationUpdated ev)).cache ev.driverId
        = some ⟨ev.latitude, ev.longitude, now⟩ ∧
    (processEvent s now (.driverLocationUpdated ev)).stale = s.stale := by
  constructor
  · simp [processEvent, onLocation, cacheGet_recordLocation]
  · rfl

/-- C4: processing a `DriverApproved` event for a driver with id D marks
stale exactly the query groups pendingDrivers, drivers, adminStats and
driver:D, and writes nothing into the location cache. -/
theorem driverApproved_invalidation (s : SysState) (now : ℕ)
    (p : DriverPayload) :
    (processEvent s now (.driverApproved p)).stale
        = s.stale
            ++ [["pendingDrivers"], ["drivers"], ["adminStats"], ["driver", p.id]] ∧
    (processEvent s now (.driverApproved p)).cache = s.cache :=
  ⟨rfl, rfl⟩

/-- C5: the heat radius `clamp(10, 50, 26 * (1 + (12 - z) * 0.2))` always
lies in the closed interval [10, 50] and is monotonically non-increasing
in the zoom level z. -/
theorem heatRadius_monotone_bounded (z : ℚ) :
    (10 ≤ heatRadius z ∧ heatRadius z ≤ 50) ∧
    ∀ z' : ℚ, z ≤ z' → heatRadius z' ≤ heatRadius z := by
  have e : ∀ w : ℚ, heatRadius w = max 10 (min 50 (26 * (1 + (12 - w) * (1 / 5)))) :=
    fun w => rfl
  refine ⟨⟨?_, ?_⟩, ?_⟩
  · rw [e z]; exact le_max_left _ _
  · rw [e z]; exact max_le (by norm_num) (min_le_left _ _)
  · intro z' hz
    rw [e z, e z']
    have h : 26 * (1 + (12 - z') * (1 / 5)) ≤ 26 * (1 + (12 - z) * (1 / 5)) := by
      nlinarith
    exact max_le_max le_rfl (min_le_min le_rfl h)

/-- C6: in supply heat mode the point cloud holds exactly one point of
weight 0.4 per available marker and one point of weight 1 per engaged
marker and nothing else, so every engaged point's weight dominates every
available point's weight. -/
theorem supplyHeat_weights (rides : List LiveRide) (drivers : List Driver)
    (cache : LocationCache) :
    (∀ pt : ℚ × ℚ × ℚ,
        pt ∈ heatPoints .supply rides drivers cache ↔
          ((∃ m ∈ availableMarkers drivers cache,
              pt = (m.position.1, m.position.2, (2 / 5 : ℚ))) ∨
            (∃ m ∈ engagedMarkers drivers cache,
              pt = (m.position.1, m.position.2, (1 : ℚ))))) ∧
    (heatPoints .supply rides drivers cache).length
        = (availableMarkers drivers cache).length
            + (engagedMarkers drivers cache).length ∧
    (∀ pt pt' : ℚ × ℚ × ℚ,
        (∃ m ∈ engagedMarkers drivers cache,
            pt = (m.position.1, m.position.2, (1 : ℚ))) →
        (∃ m ∈ availableMarkers drivers cache,
            pt' = (m.position.1, m.position.2, (2 / 5 : ℚ))) →
        pt'.2.2 ≤ pt.2.2) := by
  have e : heatPoints .supply rides drivers cache
      = (availableMarkers drivers cache).map
          (fun m => (m.position.1, m.position.2, (2 / 5 : ℚ)))
        ++ (engagedMarkers drivers cache).map
          (fun m => (m.position.1, m.position.2, (1 : ℚ))) := rfl
  refine ⟨?_, ?_, ?_⟩
  · intro pt
    rw [e]
    constructor
    · intro h
      rcases List.mem_append.mp h with h | h
      · obtain ⟨m, hm, rfl⟩ := List.mem_map.mp h
        exact Or.inl ⟨m, hm, rfl⟩
      · obtain ⟨m, hm, rfl⟩ := List.mem_map.mp h
        exact Or.inr ⟨m, hm, rfl⟩
    · rintro (⟨m, hm, rfl⟩ | ⟨m, hm, rfl⟩)
      · exact List.mem_append.mpr (Or.inl (List.mem_map.mpr ⟨m, hm, rfl⟩))
      · exact List.mem_append.mpr (Or.inr (List.mem_map.mpr ⟨m, hm, rfl⟩))
  · rw [e]; simp
  · rintro pt pt' ⟨m, hm, rfl⟩ ⟨m', hm', rfl⟩
    norm_num

lemma applyLifecycle_const (s s' : HubConnectionState) (g : LifecycleSignal) :
    applyLifecycle s g = applyLifecycle s' g := by
  cases g <;> rfl

lemma emitStates_eq_map :
    ∀ (gs : List LifecycleSignal) (s : HubConnectionState),
      emitStates s gs = gs.map (applyLifecycle s) := by
  intro gs
  induction gs with
  | nil => intro s; rfl
  | cons g gs ih =>
      intro s
      have : emitStates s (g :: gs)
          = applyLifecycle s g :: emitStates (applyLifecycle s g) gs := rfl
      rw [this, ih (applyLifecycle s g)]
      have hmap : gs.map (applyLifecycle (applyLifecycle s g))
          = gs.map (applyLifecycle s) :=
        List.map_congr_left (fun a _ => applyLifecycle_const _ _ a)
      rw [hmap, List.map_cons]

/-- C7: from any starting state, the lifecycle sequence close →
reconnecting → reconnected makes the indicator emit exactly disconnected,
reconnecting, connected in that order; more generally every emitted state
is determined by its lifecycle callback alone — the indicator changes only
through the channel's callbacks. -/
theorem connectionIndicator_sequence (s₀ : HubConnectionState) :
    emitStates s₀ [.closeSignal, .reconnectingSignal, .reconnectedSignal]
        = [.disconnected, .reconnecting, .connected] ∧
    ∀ (s₁ : HubConnectionState) (gs : List LifecycleSignal),
      emitStates s₁ gs = gs.map (applyLifecycle s₁) :=
  ⟨rfl, fun s₁ gs => emitStates_eq_map gs s₁⟩

/-- C8: when a driver event payload has a missing or empty `fullName`, each
of the three toast-producing handlers (registered, approved, rejected)
displays the generic label "A driver"; the handlers are total functions of
the payload, so a partial payload never raises. -/
theorem missingName_fallback (p : DriverPayload)
    (h : p.fullName = none ∨ p.fullName = some "") :
    toastOf (.driverRegistered p)
        = some ⟨"New driver registration", "A driver is pending approval."⟩ ∧
    toastOf (.driverApproved p)
        = some ⟨"Driver approved", "A driver was approved."⟩ ∧
    toastOf (.driverRejected p)
        = some ⟨"Driver rejected", "A driver was rejected."⟩ := by
  have hd : displayName p = "A driver" := by
    rcases h with h | h <;> simp [displayName, h]
  refine ⟨?_, ?_, ?_⟩ <;> simp only [toastOf, hd] <;> decide

/-- C8 witness: a payload with id D1 and no `fullName` yields the generic
"A driver" message in all three toasts. -/
theorem missingName_fallback_witness :
    toastOf (.driverRegistered ⟨"D1", none⟩)
        = some ⟨"New driver registration", "A driver is pending approval."⟩ ∧
    toastOf (.driverApproved ⟨"D1", none⟩)
        = some ⟨"Driver approved", "A driver was approved."⟩ ∧
    toastOf (.driverRejected ⟨"D1", none⟩)
        = some ⟨"Driver rejected", "A driver was rejected."⟩ :=
  missingName_fallback ⟨"D1", none⟩ (Or.inl rfl)

/-- C9 counterexample: with no explicit hub override and the REST base URL
set to `localhost:5000` — a set value without an http(s) scheme — the code
returns the hardcoded fallback, not the URL derived from the REST base, so
the claim's second branch ("if the REST base URL is set, the hub URL is
derived from it") does not hold as stated. -/
theorem resolveHubBaseUrl_counterexample :
    truthy (some "localhost:5000") = true ∧
    truthy (jsOr none none) = false ∧
    resolveHubBaseUrl none none (some "localhost:5000") = fallbackHubUrl ∧
    resolveHubBaseUrl none none (some "localhost:5000")
        ≠ removeApiSuffix (stripTrailingSlash "localhost:5000") ++ "/hubs" := by
  refine ⟨rfl, rfl, by decide, by decide⟩

/-- C9 (amended): the push endpoint URL resolution precedence — an explicit
truthy hub override is used with its trailing slash stripped; otherwise,
when the REST base URL is truthy and begins with `http://` or `https://`
(case-insensitive), the hub URL is derived from it (trailing slash and
trailing `/api` removed, `/hubs` appended); otherwise the hardcoded
fallback is used — and for every configuration exactly one of the three
branch conditions holds. -/
theorem resolveHubBaseUrl_precedence (hubApiUrl hubUrl apiUrl : Option String) :
    (truthy (jsOr hubApiUrl hubUrl) = true →
        resolveHubBaseUrl hubApiUrl hubUrl apiUrl
          = stripTrailingSlash ((jsOr hubApiUrl hubUrl).getD "")) ∧
    (truthy (jsOr hubApiUrl hubUrl) = false →
        (truthy apiUrl && hasHttpScheme (apiUrl.getD "")) = true →
        resolveHubBaseUrl hubApiUrl hubUrl apiUrl
          = removeApiSuffix (stripTrailingSlash (apiUrl.getD "")) ++ "/hubs") ∧
    (truthy (jsOr hubApiUrl hubUrl) = false →
        (truthy apiUrl && hasHttpScheme (apiUrl.getD "")) = false →
        resolveHubBaseUrl hubApiUrl hubUrl apiUrl = fallbackHubUrl) ∧
    ((truthy (jsOr hubApiUrl hubUrl) = true
        ∧ ¬(truthy (jsOr hubApiUrl hubUrl) = false
              ∧ (truthy apiUrl && hasHttpScheme (apiUrl.getD "")) = true)
        ∧ ¬(truthy (jsOr hubApiUrl hubUrl) = false
              ∧ (truthy apiUrl && hasHttpScheme (apiUrl.getD "")) = false))
      ∨ (¬(truthy (jsOr hubApiUrl hubUrl) = true)
        ∧ (truthy (jsOr hubApiUrl hubUrl) = false
              ∧ (truthy apiUrl && hasHttpScheme (apiUrl.getD "")) = true)
        ∧ ¬(truthy (jsOr hubApiUrl hubUrl) = false
              ∧ (truthy apiUrl && hasHttpScheme (apiUrl.getD "")) = false))
      ∨ (¬(truthy (jsOr hubApiUrl hubUrl) = true)
        ∧ ¬(truthy (jsOr hubApiUrl hubUrl) = false
              ∧ (truthy apiUrl && hasHttpScheme (apiUrl.getD "")) = true)
        ∧ (truthy (jsOr hubApiUrl hubUrl) = false
              ∧ (truthy apiUrl && hasHttpScheme (apiUrl.getD "")) = false))) := by
  refine ⟨?_, ?_, ?_, ?_⟩
  · intro h1
    simp [resolveHubBaseUrl, h1]
  · intro h1 h2
    simp [resolveHubBaseUrl, h1, h2]
  · intro h1 h2
    simp [resolveHubBaseUrl, h1, h2]
  · cases h1 : truthy (jsOr hubApiUrl hubUrl) <;>
      cases h2 : (truthy apiUrl && hasHttpScheme (apiUrl.getD "")) <;>
        simp [h1, h2]

/-- C10: status matching in the marker projection is case-insensitive — a
snapshot driver with a cached location whose lowercased status is `online`
appears among the available markers, and one whose lowercased status is
`busy` or `on_trip` appears among the engaged markers. -/
theorem statusMatch_caseInsensitive (drivers : List Driver)
    (cache : LocationCache) (d : Driver) (hd : d ∈ drivers)
    (hloc : (cacheGet cache d.id).isSome) :
    (jsToLower d.status = "online" →
        ∃ m ∈ availableMarkers drivers cache, m.id = d.id) ∧
    ((jsToLower d.status = "busy" ∨ jsToLower d.status = "on_trip") →
        ∃ m ∈ engagedMarkers drivers cache, m.id = d.id) := by
  obtain ⟨loc, hlocs⟩ := Option.isSome_iff_exists.mp hloc
  constructor
  · intro hs
    exact ⟨⟨d.id, (loc.latitude, loc.longitude)⟩,
      mem_availableMarkers.mpr ⟨d, hd, hs, loc, hlocs, rfl⟩, rfl⟩
  · intro hs
    exact ⟨⟨d.id, (loc.latitude, loc.longitude)⟩,
      mem_engagedMarkers.mpr
        ⟨d, hd, (engagedStatus_eq_true_iff d.status).mpr hs, loc, hlocs, rfl⟩, rfl⟩

/-- C10 witness: a driver with status `Online` is classified available and
one with status `ON_TRIP` is classified engaged. -/
theorem statusMatch_caseInsensitive_witness :
    (∃ m ∈ availableMarkers [⟨"X", "Online"⟩] [("X", ⟨1, 2, 0⟩)], m.id = "X") ∧
    (∃ m ∈ engagedMarkers [⟨"Y", "ON_TRIP"⟩] [("Y", ⟨3, 4, 0⟩)], m.id = "Y") :=
  ⟨(statusMatch_caseInsensitive [⟨"X", "Online"⟩] [("X", ⟨1, 2, 0⟩)]
        ⟨"X", "Online"⟩ (by decide) (by decide)).1 (by decide),
    (statusMatch_caseInsensitive [⟨"Y", "ON_TRIP"⟩] [("Y", ⟨3, 4, 0⟩)]
        ⟨"Y", "ON_TRIP"⟩ (by decide) (by decide)).2 (Or.inr (by decide))⟩

end EcoRide
